import Mathlib

/-!
# Verification of the health-assessment logic of `health_checker.py`

A shallow embedding of the MarvelOlas/aws-health-checker program
(`src/health_checker.py`). The pure parts of the program — record
normalisation, tally computation, overall-status classification, icon
lookup, report document construction — are translated into Lean
definitions; the network calls are replaced by their possible outcomes
(`Except FetchError ...`) and console output by the list of printed lines.
-/

namespace HealthChecker

/-- An EC2 tag, as in `instance.get('Tags', [])` entries with `Key`/`Value`. -/
structure Tag where
  key : String
  value : String
deriving DecidableEq, Repr

/-- A raw provider instance record, the fields of `response['Reservations'][i]['Instances'][j]`
read by `check_ec2_instances`: `InstanceId`, `InstanceType`, `State.Name`, and an
optional `Tags` list (`instance.get('Tags', [])` defaults a missing list to `[]`). -/
structure RawInstance where
  instanceId : String
  instanceType : String
  stateName : String
  tags : Option (List Tag)
deriving DecidableEq, Repr

/-- The normalised instance dictionary built at lines 50–63 of
`health_checker.py`: keys `instance_id`, `instance_type`, `state`, `name`. -/
structure InstanceRecord where
  instance_id : String
  instance_type : String
  state : String
  name : String
deriving DecidableEq, Repr

/-- A raw provider alarm record, the fields of `response['MetricAlarms'][i]`
read by `check_cloudwatch_alarms`: `AlarmName`, `StateValue`, `MetricName`,
and optional `AlarmDescription`. -/
structure RawAlarm where
  alarmName : String
  stateValue : String
  metricName : String
  alarmDescription : Option String
deriving DecidableEq, Repr

/-- The normalised alarm dictionary built at lines 111–116 of
`health_checker.py`: keys `name`, `state`, `metric`, `description`. -/
structure AlarmRecord where
  name : String
  state : String
  metric : String
  description : String
deriving DecidableEq, Repr

/-- The tag loop at lines 57–61: `name` starts as `'Unnamed'` and the first
tag with `Key == 'Name'` overwrites it (the loop `break`s at the first match). -/
def nameFromTags : List Tag → String
  | [] => "Unnamed"
  | t :: ts => if t.key == "Name" then t.value else nameFromTags ts

/-- The record-building body of the instance loop (lines 50–63):
`state` is `instance['State']['Name']` verbatim, `name` comes from the tag loop,
with a missing `Tags` field treated as the empty list. -/
def normalizeInstance (raw : RawInstance) : InstanceRecord :=
  { instance_id := raw.instanceId
    instance_type := raw.instanceType
    state := raw.stateName
    name := nameFromTags (raw.tags.getD []) }

/-- The record-building body of the alarm loop (lines 111–116):
`description` is `alarm.get('AlarmDescription', 'No description')`. -/
def normalizeAlarm (raw : RawAlarm) : AlarmRecord :=
  { name := raw.alarmName
    state := raw.stateValue
    metric := raw.metricName
    description := raw.alarmDescription.getD "No description" }

/-- The `status_icons` dictionary for instances (lines 66–72). -/
def instance_status_icons : List (String × String) :=
  [("running", "✅"), ("stopped", "🛑"), ("pending", "⏳"),
   ("stopping", "⏳"), ("terminated", "💀")]

/-- `status_icons.get(instance_info['state'], '⚠️')` (line 73). -/
def instanceStatusIcon (state : String) : String :=
  (instance_status_icons.lookup state).getD "⚠️"

/-- The `status_icons` dictionary for alarms (lines 119–123). -/
def alarm_status_icons : List (String × String) :=
  [("OK", "✅"), ("ALARM", "🚨"), ("INSUFFICIENT_DATA", "⚠️")]

/-- `status_icons.get(alarm_info['state'], '❓')` (line 124). -/
def alarmStatusIcon (state : String) : String :=
  (alarm_status_icons.lookup state).getD "❓"

/-! ## Summarizer tallies (`generate_summary`, lines 150–159) -/

/-- `sum(1 for i in instances if i['state'] == 'running')` (line 152). -/
def running_count (instances : List InstanceRecord) : Nat :=
  instances.countP (fun i => i.state == "running")

/-- `sum(1 for i in instances if i['state'] == 'stopped')` (line 153). -/
def stopped_count (instances : List InstanceRecord) : Nat :=
  instances.countP (fun i => i.state == "stopped")

/-- `other = total_instances - running - stopped` (line 154); Python integer
subtraction, so the result lives in `Int`. -/
def other_instances (instances : List InstanceRecord) : Int :=
  (instances.length : Int) - running_count instances - stopped_count instances

/-- `sum(1 for a in alarms if a['state'] == 'ALARM')` (line 158). -/
def alarming_count (alarms : List AlarmRecord) : Nat :=
  alarms.countP (fun a => a.state == "ALARM")

/-- `sum(1 for a in alarms if a['state'] == 'OK')` (line 159). -/
def ok_alarms_count (alarms : List AlarmRecord) : Nat :=
  alarms.countP (fun a => a.state == "OK")

/-- Count of alarms whose state is neither `OK` nor `ALARM` (the "remaining
alarm states"; the program itself computes no such tally). -/
def other_alarms_count (alarms : List AlarmRecord) : Nat :=
  alarms.countP (fun a => !(a.state == "OK") && !(a.state == "ALARM"))

/-- Count of instances whose state is neither `running` nor `stopped`. -/
def other_states_count (instances : List InstanceRecord) : Nat :=
  instances.countP (fun i => !(i.state == "running") && !(i.state == "stopped"))

/-- The dictionary returned by `generate_summary` (lines 186–192), as an
association list in the order the keys are written: `total_instances`,
`running_instances`, `stopped_instances`, `total_alarms`, `active_alarms`. -/
def generate_summary (instances : List InstanceRecord) (alarms : List AlarmRecord) :
    List (String × Nat) :=
  [("total_instances", instances.length),
   ("running_instances", running_count instances),
   ("stopped_instances", stopped_count instances),
   ("total_alarms", alarms.length),
   ("active_alarms", alarming_count alarms)]

/-- The four branches of the overall health assessment (lines 176–183), one
constructor per printed verdict: `ATTENTION` for "There are active alarms…",
`HEALTHY` for "ALL SYSTEMS HEALTHY", `NO_RESOURCES` for "No resources found to
monitor", `PARTIAL` for "Some instances are not running". -/
inductive OverallStatus where
  | ATTENTION : OverallStatus
  | HEALTHY : OverallStatus
  | NO_RESOURCES : OverallStatus
  | PARTIAL : OverallStatus
deriving DecidableEq, Repr

/-- The branch chosen by the `if`/`elif` chain at lines 176–183, with the
conditions in the source's order and form: `alarming > 0`, then
`running == total_instances and total_instances > 0`, then
`total_instances == 0 and total_alarms == 0`, else the final branch. -/
def overall_status (instances : List InstanceRecord) (alarms : List AlarmRecord) :
    OverallStatus :=
  if alarming_count alarms > 0 then OverallStatus.ATTENTION
  else if running_count instances = instances.length ∧ instances.length > 0 then
    OverallStatus.HEALTHY
  else if instances.length = 0 ∧ alarms.length = 0 then OverallStatus.NO_RESOURCES
  else OverallStatus.PARTIAL

/-- The overall-status policy as the spec words it (§4.2): first match wins,
with the HEALTHY condition written `total_instances > 0 and
running_instances == total_instances`. Stated separately from
`overall_status` so the refinement can be proved rather than assumed. -/
def overall_status_of_spec (instances : List InstanceRecord)
    (alarms : List AlarmRecord) : OverallStatus :=
  if alarming_count alarms > 0 then OverallStatus.ATTENTION
  else if instances.length > 0 ∧ running_count instances = instances.length then
    OverallStatus.HEALTHY
  else if instances.length = 0 ∧ alarms.length = 0 then OverallStatus.NO_RESOURCES
  else OverallStatus.PARTIAL

/-! ## Fetch outcomes and the printed report (`check_ec2_instances`,
`check_cloudwatch_alarms`, `main`) -/

/-- The two exception classes caught around the API calls:
`NoCredentialsError` and `ClientError` (which carries the provider's
error message, `e.response['Error']['Message']`). -/
inductive FetchError where
  | noCredentials : FetchError
  | clientError : String → FetchError
deriving DecidableEq, Repr

/-- `'='*50`, the section separator printed by every report section. -/
def eqBar : String := String.mk (List.replicate 50 (Char.ofNat 61))

/-- `check_ec2_instances` (lines 21–81) with the network call replaced by its
outcome. Returns the printed lines (one string per `print` call; the leading
`\n` of the first separator kept in the string) and the returned record list:
on `NoCredentialsError` it prints the error plus a remediation hint and
returns `[]`; on `ClientError` it prints the provider message and returns
`[]`; otherwise it normalises each raw instance and prints its two display
lines. -/
def check_ec2_instances (resp : Except FetchError (List RawInstance)) :
    List String × List InstanceRecord :=
  let header := ["\n" ++ eqBar, "EC2 INSTANCE STATUS", eqBar]
  match resp with
  | Except.error FetchError.noCredentials =>
      (header ++ ["❌ Error: AWS credentials not configured",
                  "   Run \x27aws configure\x27 to set up credentials"], [])
  | Except.error (FetchError.clientError msg) =>
      (header ++ ["❌ Error: " ++ msg], [])
  | Except.ok raws =>
      let records := raws.map normalizeInstance
      let lines := records.foldr (fun r acc =>
        (instanceStatusIcon r.state ++ " " ++ r.name ++ " (" ++
          r.instance_id ++ ")") ::
        ("   Type: " ++ r.instance_type ++ ", State: " ++ r.state) :: acc) []
      let lines := if records.isEmpty
        then lines ++ ["ℹ️  No EC2 instances found in this region."]
        else lines
      (header ++ lines, records)

/-- `check_cloudwatch_alarms` (lines 84–132), same shape as the EC2 check.
Note the `NoCredentialsError` branch here prints only the error line
(line 102), with no remediation hint. -/
def check_cloudwatch_alarms (resp : Except FetchError (List RawAlarm)) :
    List String × List AlarmRecord :=
  let header := ["\n" ++ eqBar, "CLOUDWATCH ALARM STATUS", eqBar]
  match resp with
  | Except.error FetchError.noCredentials =>
      (header ++ ["❌ Error: AWS credentials not configured"], [])
  | Except.error (FetchError.clientError msg) =>
      (header ++ ["❌ Error: " ++ msg], [])
  | Except.ok raws =>
      let records := raws.map normalizeAlarm
      let lines := records.foldr (fun a acc =>
        (alarmStatusIcon a.state ++ " " ++ a.name) ::
        ("   State: " ++ a.state ++ ", Metric: " ++ a.metric) :: acc) []
      let lines := if records.isEmpty
        then lines ++ ["ℹ️  No CloudWatch alarms configured in this region."]
        else lines
      (header ++ lines, records)

/-- The check-and-summarise sequence of `main` (lines 260–264): both checks
run whatever each one returned, and the summary is computed from their
record lists. The overall verdict printed by `generate_summary` is carried
alongside the returned dictionary. -/
def runHealthCheck (ec2resp : Except FetchError (List RawInstance))
    (cwresp : Except FetchError (List RawAlarm)) :
    List (String × Nat) × OverallStatus :=
  let instances := (check_ec2_instances ec2resp).2
  let alarms := (check_cloudwatch_alarms cwresp).2
  (generate_summary instances alarms, overall_status instances alarms)

/-! ## The persisted JSON report (`save_report`, lines 195–221) -/

/-- JSON values, as far as the persisted report needs them. -/
inductive Json where
  | num : Nat → Json
  | str : String → Json
  | arr : List Json → Json
  | obj : List (String × Json) → Json

/-- An `InstanceRecord` as `json.dump` serialises it inside the report. -/
def instanceToJson (r : InstanceRecord) : Json :=
  Json.obj [("instance_id", Json.str r.instance_id),
            ("instance_type", Json.str r.instance_type),
            ("state", Json.str r.state),
            ("name", Json.str r.name)]

/-- An `AlarmRecord` as `json.dump` serialises it inside the report. -/
def alarmToJson (a : AlarmRecord) : Json :=
  Json.obj [("name", Json.str a.name),
            ("state", Json.str a.state),
            ("metric", Json.str a.metric),
            ("description", Json.str a.description)]

/-- The summary dictionary as a JSON object. -/
def summaryToJson (summary : List (String × Nat)) : Json :=
  Json.obj (summary.map (fun p => (p.1, Json.num p.2)))

/-- The `report` document built by `save_report` (lines 206–216):
`report_metadata` (with `generated_at`, `region`, `tool`, `author`),
`instances`, `alarms`, `summary`. -/
def buildReport (generated_at region : String) (instances : List InstanceRecord)
    (alarms : List AlarmRecord) (summary : List (String × Nat)) : Json :=
  Json.obj
    [("report_metadata", Json.obj
        [("generated_at", Json.str generated_at),
         ("region", Json.str region),
         ("tool", Json.str "AWS Health Checker"),
         ("author", Json.str "Marvelous Olabinjo")]),
     ("instances", Json.arr (instances.map instanceToJson)),
     ("alarms", Json.arr (alarms.map alarmToJson)),
     ("summary", summaryToJson summary)]

/-- Field access on a JSON object. -/
def getField (key : String) : Json → Option Json
  | Json.obj fields => fields.lookup key
  | _ => none

/-- Modelled from the spec: the program never reads a report back, so the
parsing direction of §8's round-trip property ("serializing a Summary to the
persisted format and parsing it back yields an identical Summary") is not in
`src/`. Reads a JSON object's fields back into a summary dictionary,
rejecting any non-numeric field. -/
def summaryFieldsOfJson : List (String × Json) → Option (List (String × Nat))
  | [] => some []
  | (k, Json.num n) :: rest =>
      (summaryFieldsOfJson rest).map (fun t => (k, n) :: t)
  | _ => none

/-- Modelled from the spec: parse a persisted summary object back into the
summary dictionary (see `summaryFieldsOfJson`). -/
def parseSummary : Json → Option (List (String × Nat))
  | Json.obj fields => summaryFieldsOfJson fields
  | _ => none

/-! ## Theorems -/

/-- **C1.** The overall status follows the spec's fixed first-match-wins
priority order, and in particular is `ATTENTION` whenever the count of alarms
in state `ALARM` is positive, regardless of instance counts. -/
theorem claim_C1_overall_status_priority :
    ∀ (instances : List InstanceRecord) (alarms : List AlarmRecord),
      overall_status instances alarms = overall_status_of_spec instances alarms ∧
      (0 < alarming_count alarms →
        overall_status instances alarms = OverallStatus.ATTENTION) := by
  intro instances alarms
  constructor
  · unfold overall_status overall_status_of_spec
    split_ifs <;> first | rfl | tauto
  · intro h
    unfold overall_status
    simp only [if_pos h]

/-- A concrete alarm record in state `ALARM`. -/
def alarmInAlarm : AlarmRecord :=
  { name := "cpu-high", state := "ALARM", metric := "CPUUtilization",
    description := "No description" }

/-- Witness for C1 at concrete input: one alarm in state `ALARM`, no
instances, yields `ATTENTION`. -/
theorem claim_C1_overall_status_priority_witness :
    overall_status [] [alarmInAlarm] = OverallStatus.ATTENTION :=
  (claim_C1_overall_status_priority [] [alarmInAlarm]).2 (by decide)

/-- **C3.** Instance tallies: `running + stopped + other == total_instances`,
with `other` the value `total - running - stopped` computed at line 154. -/
theorem claim_C3_instance_tally_invariant :
    ∀ instances : List InstanceRecord,
      (running_count instances : Int) + stopped_count instances +
        other_instances instances = instances.length := by
  intro instances
  unfold other_instances
  ring

/-- Counting with two mutually exclusive predicates and with "neither"
partitions a list's length. -/
theorem countP_partition3 {α : Type} (p q : α → Bool)
    (h : ∀ a, p a = true → q a = true → False) (l : List α) :
    l.countP p + l.countP q + l.countP (fun a => !p a && !q a) = l.length := by
  induction l with
  | nil => rfl
  | cons a t ih =>
    by_cases hp : p a = true
    · by_cases hq : q a = true
      · exact (h a hp hq).elim
      · simp only [List.countP_cons, hp, hq, Bool.not_true, Bool.false_and,
          if_true, if_false, List.length_cons]
        simp only [Bool.not_eq_true] at hq
        simp [hq]
        omega
    · by_cases hq : q a = true
      · simp only [Bool.not_eq_true] at hp
        simp [List.countP_cons, hp, hq]
        omega
      · simp only [Bool.not_eq_true] at hp hq
        simp [List.countP_cons, hp, hq]
        omega

/-- **C4.** Alarm tallies: `ok + alarming + other == total_alarms`, where
`other` counts the alarm states that are neither `OK` nor `ALARM`. -/
theorem claim_C4_alarm_tally_invariant :
    ∀ alarms : List AlarmRecord,
      ok_alarms_count alarms + alarming_count alarms + other_alarms_count alarms =
        alarms.length := by
  intro alarms
  unfold ok_alarms_count alarming_count other_alarms_count
  refine countP_partition3 _ _ (fun a h1 h2 => ?_) alarms
  have e1 : a.state = "OK" := by simpa using h1
  have e2 : a.state = "ALARM" := by simpa using h2
  rw [e1] at e2
  exact absurd e2 (by decide)

/-- **C9.** The `other` instance count `total − running − stopped` is never
negative: no record is counted as both running and stopped. -/
theorem claim_C9_other_nonneg :
    ∀ instances : List InstanceRecord, 0 ≤ other_instances instances := by
  intro instances
  have h := countP_partition3 (fun i : InstanceRecord => i.state == "running")
    (fun i => i.state == "stopped")
    (fun a h1 h2 => by
      have e1 : a.state = "running" := by simpa using h1
      have e2 : a.state = "stopped" := by simpa using h2
      rw [e1] at e2
      exact absurd e2 (by decide)) instances
  unfold other_instances running_count stopped_count
  omega

/-- **C2 (counterexample).** The returned summary dictionary has no
`other_instances` key, contrary to the claimed field list. -/
theorem claim_C2_counterexample :
    "other_instances" ∉ (generate_summary [] []).map Prod.fst := by
  decide

/-- **C2 (amended).** The summary dictionary contains exactly the keys
`total_instances`, `running_instances`, `stopped_instances`, `total_alarms`
and `active_alarms` (in that order), with values derived purely from the two
record lists; `other_instances`, `ok_alarms` and the overall status are only
printed, never stored. -/
theorem claim_C2_summary_fields :
    ∀ (instances : List InstanceRecord) (alarms : List AlarmRecord),
      (generate_summary instances alarms).map Prod.fst =
        ["total_instances", "running_instances", "stopped_instances",
         "total_alarms", "active_alarms"] ∧
      (generate_summary instances alarms).lookup "total_instances" =
        some instances.length ∧
      (generate_summary instances alarms).lookup "active_alarms" =
        some (alarming_count alarms) := by
  intro instances alarms
  exact ⟨rfl, rfl, rfl⟩

/-- **C10.** The summary dictionary and the overall classification are
invariant under permutation of either input list: they depend only on the
multiset of record states. -/
theorem claim_C10_permutation_invariance :
    ∀ (i₁ i₂ : List InstanceRecord) (a₁ a₂ : List AlarmRecord),
      i₁.Perm i₂ → a₁.Perm a₂ →
      generate_summary i₁ a₁ = generate_summary i₂ a₂ ∧
      overall_status i₁ a₁ = overall_status i₂ a₂ := by
  intro i₁ i₂ a₁ a₂ hi ha
  constructor
  · simp only [generate_summary, running_count, stopped_count, alarming_count,
      hi.length_eq, ha.length_eq, List.Perm.countP_eq _ hi,
      List.Perm.countP_eq _ ha]
  · unfold overall_status running_count alarming_count
    rw [List.Perm.countP_eq _ hi, List.Perm.countP_eq _ ha, hi.length_eq,
      ha.length_eq]

/-- A concrete running instance record. -/
def instRunning : InstanceRecord :=
  { instance_id := "i-0a1", instance_type := "t3.micro", state := "running",
    name := "web" }

/-- A concrete stopped instance record. -/
def instStopped : InstanceRecord :=
  { instance_id := "i-0b2", instance_type := "t3.small", state := "stopped",
    name := "db" }

/-- Witness for C10 at concrete input: swapping two instance records leaves
the summary unchanged. -/
theorem claim_C10_permutation_invariance_witness :
    generate_summary [instRunning, instStopped] [] =
      generate_summary [instStopped, instRunning] [] :=
  (claim_C10_permutation_invariance [instRunning, instStopped]
    [instStopped, instRunning] [] []
    (List.Perm.swap instStopped instRunning [])
    (List.Perm.refl [])).1

/-- Summary serialisation inverts field by field. -/
theorem summaryFieldsOfJson_map (fields : List (String × Nat)) :
    summaryFieldsOfJson (fields.map (fun p => (p.1, Json.num p.2))) =
      some fields := by
  induction fields with
  | nil => rfl
  | cons p t ih =>
    obtain ⟨k, n⟩ := p
    simp [summaryFieldsOfJson, ih]

/-- **C5.** Serialising a summary into the persisted report document and
parsing it back yields the identical summary. -/
theorem claim_C5_summary_roundtrip :
    ∀ (generated_at region : String) (instances : List InstanceRecord)
      (alarms : List AlarmRecord) (summary : List (String × Nat)),
      Option.bind
        (getField "summary"
          (buildReport generated_at region instances alarms summary))
        parseSummary = some summary := by
  intro generated_at region instances alarms summary
  have h : getField "summary"
      (buildReport generated_at region instances alarms summary) =
        some (summaryToJson summary) := rfl
  rw [h]
  show parseSummary (summaryToJson summary) = some summary
  show summaryFieldsOfJson (summary.map (fun p => (p.1, Json.num p.2))) =
    some summary
  exact summaryFieldsOfJson_map summary

/-- **C6 (counterexample).** The CloudWatch check's credentials-error branch
prints no remediation hint: the `aws configure` hint line is absent from its
output. -/
theorem claim_C6_counterexample :
    "   Run \x27aws configure\x27 to set up credentials" ∉
      (check_cloudwatch_alarms (Except.error FetchError.noCredentials)).1 := by
  decide

/-- **C6 (amended).** On an authentication error the EC2 check reports the
error with a remediation hint and the CloudWatch check reports the error
message alone; either check returns the empty list, so the other check and
the summary still generate; the summarizer is total on empty inputs and
classifies two empty lists as `NO_RESOURCES`. -/
theorem claim_C6_auth_error_degrades :
    ∀ cwresp : Except FetchError (List RawAlarm),
      (check_ec2_instances (Except.error FetchError.noCredentials)).2 = [] ∧
      "❌ Error: AWS credentials not configured" ∈
        (check_ec2_instances (Except.error FetchError.noCredentials)).1 ∧
      "   Run \x27aws configure\x27 to set up credentials" ∈
        (check_ec2_instances (Except.error FetchError.noCredentials)).1 ∧
      (check_cloudwatch_alarms (Except.error FetchError.noCredentials)).2 = [] ∧
      "❌ Error: AWS credentials not configured" ∈
        (check_cloudwatch_alarms (Except.error FetchError.noCredentials)).1 ∧
      runHealthCheck (Except.error FetchError.noCredentials) cwresp =
        (generate_summary [] (check_cloudwatch_alarms cwresp).2,
         overall_status [] (check_cloudwatch_alarms cwresp).2) ∧
      generate_summary [] [] =
        [("total_instances", 0), ("running_instances", 0),
         ("stopped_instances", 0), ("total_alarms", 0), ("active_alarms", 0)] ∧
      overall_status [] [] = OverallStatus.NO_RESOURCES := by
  intro cwresp
  exact ⟨rfl, by decide, by decide, rfl, by decide, rfl, rfl, by decide⟩

/-- The tag loop agrees with a first-match search for the `Name` key. -/
theorem nameFromTags_eq_find (tags : List Tag) :
    nameFromTags tags =
      ((tags.find? (fun t => t.key == "Name")).map Tag.value).getD "Unnamed" := by
  induction tags with
  | nil => rfl
  | cons t ts ih =>
    by_cases h : (t.key == "Name") = true
    · simp [nameFromTags, List.find?, h]
    · simp only [Bool.not_eq_true] at h
      simp [nameFromTags, List.find?, h, ih]

/-- **C7.** The normaliser keeps the provider state string verbatim; `name`
is `"Unnamed"` when no `Name` tag exists and the first `Name` tag's value
otherwise; a record whose state maps to no tally bucket is still counted, in
the `other` bucket. -/
theorem claim_C7_normalizer :
    ∀ raw : RawInstance,
      (normalizeInstance raw).state = raw.stateName ∧
      ((raw.tags.getD []).find? (fun t => t.key == "Name") = none →
        (normalizeInstance raw).name = "Unnamed") ∧
      (∀ t, (raw.tags.getD []).find? (fun t => t.key == "Name") = some t →
        (normalizeInstance raw).name = t.value) ∧
      (raw.stateName ≠ "running" → raw.stateName ≠ "stopped" →
        other_instances [normalizeInstance raw] = 1) := by
  intro raw
  refine ⟨rfl, ?_, ?_, ?_⟩
  · intro h
    show nameFromTags (raw.tags.getD []) = "Unnamed"
    rw [nameFromTags_eq_find, h]
    rfl
  · intro t h
    show nameFromTags (raw.tags.getD []) = t.value
    rw [nameFromTags_eq_find, h]
    rfl
  · intro h1 h2
    unfold other_instances running_count stopped_count
    have e1 : ((normalizeInstance raw).state == "running") = false := by
      simpa [normalizeInstance] using h1
    have e2 : ((normalizeInstance raw).state == "stopped") = false := by
      simpa [normalizeInstance] using h2
    simp [List.countP_cons, e1, e2]

/-- A concrete raw instance with no tags in a state outside the tally map. -/
def rawPending : RawInstance :=
  { instanceId := "i-0c3", instanceType := "t2.nano", stateName := "pending",
    tags := none }

/-- A concrete raw instance carrying a `Name` tag. -/
def rawNamed : RawInstance :=
  { instanceId := "i-0d4", instanceType := "t3.large", stateName := "running",
    tags := some [{ key := "Name", value := "web" }] }

/-- Witness for C7 at concrete inputs: an untagged pending instance is named
`"Unnamed"`, keeps state `"pending"`, and lands in the `other` bucket; a
tagged instance takes its `Name` tag's value. -/
theorem claim_C7_normalizer_witness :
    (normalizeInstance rawPending).state = "pending" ∧
    (normalizeInstance rawPending).name = "Unnamed" ∧
    other_instances [normalizeInstance rawPending] = 1 ∧
    (normalizeInstance rawNamed).name = "web" :=
  ⟨(claim_C7_normalizer rawPending).1,
   (claim_C7_normalizer rawPending).2.1 rfl,
   (claim_C7_normalizer rawPending).2.2.2 (by decide) (by decide),
   (claim_C7_normalizer rawNamed).2.2.1 { key := "Name", value := "web" }
     (by decide)⟩

/-- A successful lookup returns one of the association list's values. -/
theorem lookup_mem_values {β : Type} (key : String)
    (l : List (String × β)) (v : β) (h : l.lookup key = some v) :
    v ∈ l.map Prod.snd := by
  induction l with
  | nil => simp [List.lookup] at h
  | cons p t ih =>
    obtain ⟨k, b⟩ := p
    by_cases hk : (key == k) = true
    · simp [List.lookup, hk] at h
      simp [h]
    · simp only [Bool.not_eq_true] at hk
      simp [List.lookup, hk] at h
      simp [ih h]

/-- **C8.** Both state→symbol maps are total: a mapped state yields its fixed
icon, any unmapped state yields the dedicated unknown icon, that unknown icon
appears nowhere among the mapped icons, and no state ever yields the empty
string. -/
theorem claim_C8_icon_totality :
    ∀ state : String,
      instanceStatusIcon state ≠ "" ∧
      alarmStatusIcon state ≠ "" ∧
      (∀ icon, instance_status_icons.lookup state = some icon →
        instanceStatusIcon state = icon) ∧
      (instance_status_icons.lookup state = none →
        instanceStatusIcon state = "⚠️" ∧
        "⚠️" ∉ instance_status_icons.map Prod.snd) ∧
      (∀ icon, alarm_status_icons.lookup state = some icon →
        alarmStatusIcon state = icon) ∧
      (alarm_status_icons.lookup state = none →
        alarmStatusIcon state = "❓" ∧
        "❓" ∉ alarm_status_icons.map Prod.snd) := by
  intro state
  refine ⟨?_, ?_, ?_, ?_, ?_, ?_⟩
  · unfold instanceStatusIcon
    cases h : instance_status_icons.lookup state with
    | none => decide
    | some v =>
      have hv := lookup_mem_values state _ v h
      have hv2 : v = "✅" ∨ v = "🛑" ∨ v = "⏳" ∨ v = "⏳" ∨ v = "💀" := by
        simpa [instance_status_icons] using hv
      rcases hv2 with rfl | rfl | rfl | rfl | rfl <;> decide
  · unfold alarmStatusIcon
    cases h : alarm_status_icons.lookup state with
    | none => decide
    | some v =>
      have hv := lookup_mem_values state _ v h
      have hv2 : v = "✅" ∨ v = "🚨" ∨ v = "⚠️" := by
        simpa [alarm_status_icons] using hv
      rcases hv2 with rfl | rfl | rfl <;> decide
  · intro icon h
    unfold instanceStatusIcon
    rw [h]
    rfl
  · intro h
    refine ⟨?_, by decide⟩
    unfold instanceStatusIcon
    rw [h]
    rfl
  · intro icon h
    unfold alarmStatusIcon
    rw [h]
    rfl
  · intro h
    refine ⟨?_, by decide⟩
    unfold alarmStatusIcon
    rw [h]
    rfl

/-- Witness for C8 at concrete inputs: `"running"` maps to its fixed icon and
an arbitrary unmapped state gets the unknown alarm icon. -/
theorem claim_C8_icon_totality_witness :
    instanceStatusIcon "running" = "✅" ∧ instanceStatusIcon "banana" = "⚠️" ∧
    alarmStatusIcon "OK" = "✅" ∧ alarmStatusIcon "banana" = "❓" :=
  ⟨(claim_C8_icon_totality "running").2.2.1 "✅" rfl,
   ((claim_C8_icon_totality "banana").2.2.2.1 rfl).1,
   (claim_C8_icon_totality "OK").2.2.2.2.1 "✅" rfl,
   ((claim_C8_icon_totality "banana").2.2.2.2.2 rfl).1⟩

end HealthChecker
